import Mathlib

set_option maxRecDepth 16384

/-!
Shallow embedding of the int 0x15 system-call handlers of SeaBIOS
`src/system.c`, together with theorems checking the natural-language
specification against them.

Machine integers are modelled as `Nat` with explicit reductions modulo
`2^8`, `2^16` or `2^32` at the points where the C code truncates or
wraps.  Memory regions touched by the block move are modelled as
word-indexed functions `Nat → Nat`; the data-write trace of the copy
loop is an explicit list of (word-address, value) pairs so that "how
many writes, in which order" is expressible.
-/

/-- Truncation to a 16-bit register (assignment to `u16`). -/
def mod16 (n : Nat) : Nat := n % 65536

/-- Reduction modulo 2^32 (`u32` arithmetic). -/
def mod32 (n : Nat) : Nat := n % 4294967296

/-- Subtraction of `u32` values, wrapping modulo 2^32 as in C. -/
def sub32 (a b : Nat) : Nat := mod32 (a + 4294967296 - b)

/-- Modelled from the spec: the single gate bit of the PS2 System Control
port A status register ("A20 gate ... hardware bit").  The numeric value
comes from `ioport.h`, which is not under `src/`; no theorem below
depends on the particular value, only on it being one fixed bit. -/
def A20_ENABLE_BIT : Nat := 2

/-- Modelled from the spec: the fixed "unsupported function" status code
returned by `set_code_fail(regs, RET_EUNSUPPORTED)`; the numeric value
comes from `bregs.h`, which is not under `src/`. -/
def RET_EUNSUPPORTED : Nat := 0x86

/-- set_a20 from src/system.c: given the requested state `cond` and the
current byte `oldval` read from PORT_A20, compute the value written back
and the returned previous state.  `oldval & ~A20_ENABLE_BIT` on a `u8`
is `oldval &&& (0xff ^^^ A20_ENABLE_BIT)`.  Result: (previous state,
byte written to the port). -/
def set_a20 (cond : Bool) (oldval : Nat) : Bool × Nat :=
  let newval := if cond then oldval ||| A20_ENABLE_BIT
                else oldval &&& (0xff ^^^ A20_ENABLE_BIT)
  (oldval &&& A20_ENABLE_BIT != 0, newval)

/-- handle_1588 from src/system.c: `regs->ax` after the call, as a
function of the global `RamSize` `rs`.  The subtraction
`rs - 1*1024*1024` is `u32` arithmetic; the store to the 16-bit `ax`
truncates. -/
def handle_1588 (rs : Nat) : Nat :=
  if 64 * 1024 * 1024 < rs then mod16 (63 * 1024)
  else mod16 (sub32 rs (1 * 1024 * 1024) / 1024)

/-- Register results of handle_15e801: the four 16-bit outputs. -/
structure E801Out where
  cx : Nat
  dx : Nat
  ax : Nat
  bx : Nat
deriving DecidableEq, Repr

/-- handle_15e801 from src/system.c, as a function of `RamSize` `rs`.
Subtractions are `u32` arithmetic, stores to 16-bit registers truncate;
`ax`/`bx` mirror `cx`/`dx`. -/
def handle_15e801 (rs : Nat) : E801Out :=
  let cx := if 16 * 1024 * 1024 < rs then mod16 (15 * 1024)
            else mod16 (sub32 rs (1 * 1024 * 1024) / 1024)
  let dx := if 16 * 1024 * 1024 < rs
            then mod16 (sub32 rs (16 * 1024 * 1024) / (64 * 1024))
            else 0
  { cx := cx, dx := dx, ax := cx, bx := dx }

/-- Modelled from the spec: one memory-map entry, "{base: 64-bit address,
length: 64-bit count, type: enumerated}" (`struct e820entry` lives in
`memmap.h`, which is not under `src/`). -/
structure E820Entry where
  start : Nat
  size : Nat
  typ : Nat
deriving DecidableEq, Repr

/-- Modelled from the spec: the entry's fixed encoded size in bytes,
`sizeof(e820_list[0])` = 8 + 8 + 4 (packed u64, u64, u32). -/
def E820_ENTRY_SIZE : Nat := 20

/-- The caller-visible registers of handle_15e820 (all `u32`; `bx` is the
low 16 bits of `ebx`).  `cf` is the carry flag used as the failure
indicator by `set_code_fail` / `set_success`. -/
structure E820Regs where
  eax : Nat
  ebx : Nat
  ecx : Nat
  edx : Nat
  cf : Bool
deriving DecidableEq, Repr

/-- set_code_fail's effect on `eax`: store the status code into the
`ah` byte (bits 8..15), leaving `al` and the upper 16 bits untouched. -/
def setAH (eax code : Nat) : Nat :=
  eax / 65536 * 65536 + code * 256 + eax % 256

/-- Result of one handle_15e820 call: the registers after the call, the
write to the caller's buffer performed by `memcpy_far` (`none` when no
copy was executed), and the server-side table after the call (the
handler only reads `e820_list`, so it is passed through unchanged). -/
structure E820Result where
  regs : E820Regs
  bufWrite : Option E820Entry
  table : Nat → E820Entry

/-- handle_15e820 from src/system.c, over the globals `e820_list`
(`table`) and `e820_count` (`count`).  The validation is a single `if`:
signature `edx` must be 0x534D4150, the 16-bit cursor `bx` must be
below `count`, and `ecx` must be at least `sizeof(e820_list[0])`;
otherwise `set_code_fail(regs, RET_EUNSUPPORTED)`.  On success the
entry at `bx` is copied to the caller's buffer, `ebx` becomes 0 when
`bx == count-1` and is incremented (32-bit) otherwise, `eax` echoes the
signature and `ecx` reports the encoded size. -/
def handle_15e820 (table : Nat → E820Entry) (count : Nat) (r : E820Regs) :
    E820Result :=
  if r.edx ≠ 0x534D4150 ∨ count ≤ r.ebx % 65536 ∨ r.ecx < E820_ENTRY_SIZE then
    { regs := { r with eax := setAH r.eax RET_EUNSUPPORTED, cf := true },
      bufWrite := none, table := table }
  else
    let ebx := if r.ebx % 65536 = count - 1 then 0 else mod32 (r.ebx + 1)
    { regs := { r with eax := 0x534D4150, ebx := ebx,
                       ecx := E820_ENTRY_SIZE, cf := false },
      bufWrite := some (table (r.ebx % 65536)), table := table }

/-- Modelled from the spec: descriptor-encoding helpers `GDT_LIMIT`,
`GDT_BASE`, `GDT_CODE`, `GDT_DATA` used by handle_1587's "Descriptor
Table Builder" ("base: 32-bit physical address, limit: 20-bit
length-minus-one, access flags").  Their definitions live in `util.h`,
which is not under `src/`; no theorem below depends on the encodings. -/
def GDT_LIMIT (v : Nat) : Nat :=
  (v &&& 0xffff) ||| ((v &&& 0xf0000) <<< 32)

/-- Modelled from the spec: base-address part of a descriptor (see
`GDT_LIMIT`). -/
def GDT_BASE (v : Nat) : Nat :=
  ((v &&& 0xff000000) <<< 32) ||| ((v &&& 0x00ffffff) <<< 16)

/-- Modelled from the spec: access flags of a code descriptor (see
`GDT_LIMIT`). -/
def GDT_CODE : Nat := 0x9b <<< 40

/-- Modelled from the spec: access flags of a writable data descriptor
(see `GDT_LIMIT`). -/
def GDT_DATA : Nat := 0x93 <<< 40

/-- MAKE_FLATPTR: linear address of real-mode seg:off. -/
def MAKE_FLATPTR (seg off : Nat) : Nat := seg * 16 + off

/-- Input registers of handle_1587: `es:si` locates the caller's
descriptor table, `ss` is the current stack segment (read via
`GET_SEG(SS)`), `cx` is the 16-bit word count. -/
structure MoveRegs where
  si : Nat
  es : Nat
  ss : Nat
  cx : Nat

/-- Machine state touched by handle_1587: the PORT_A20 byte, the six
u64 descriptor slots of the caller table at `es:si`, and the two memory
regions named by the caller-supplied source and destination descriptors
(slots 2 and 3), word-indexed from each region's base. -/
structure MoveState where
  a20Port : Nat
  gdt : Nat → Nat
  srcMem : Nat → Nat
  dstMem : Nat → Nat

/-- The `rep movsw` loop, executed in a 16-bit code segment: `si` and
`di` are 16-bit registers, so the byte offsets into the source and
destination regions wrap modulo 2^16.  Both are zeroed before the loop
and stepped by 2 in lockstep, so they stay equal throughout and one
byte offset `off` (invariant: even, `< 65536`) models both.  Each
iteration reads the word at byte offset `off` of the source region,
writes it at byte offset `off` of the destination region, and advances
`off` by 2 modulo 2^16; word addresses are recorded as `off / 2`.
Returns the final destination region and the trace of data writes in
the order they are performed. -/
def rep_movsw : Nat → Nat → (Nat → Nat) → (Nat → Nat) →
    ((Nat → Nat) × List (Nat × Nat))
  | 0, _, _, dst => (dst, [])
  | n + 1, off, src, dst =>
      let w := off / 2
      let dst1 := fun j => if j = w then src w else dst j
      let rest := rep_movsw n ((off + 2) % 65536) src dst1
      (rest.1, (w, src w) :: rest.2)

/-- Result of handle_1587: the PORT_A20 byte while the copy runs
(`midPort`), the byte after return (`finalPort`), the descriptor table
after the three `SET_FARVAR` stores, the destination region, the data-
write trace of the copy, and the status (`set_code_success`). -/
structure MoveResult where
  midPort : Nat
  finalPort : Nat
  gdt : Nat → Nat
  dstMem : Nat → Nat
  writes : List (Nat × Nat)
  success : Bool

/-- handle_1587 from src/system.c.  Steps, in source order: save the
previous gate state while forcing the gate on (`set_a20(1)`); fill GDT
slot 1 (table-self descriptor at `es:si`, limit `6*8-1`), slot 4 (code
descriptor for the 0xf0000 BIOS segment) and slot 5 (stack-segment data
descriptor); copy `cx` words from the source region to the destination
region (`xorw si,si; xorw di,di; rep movsw` — both 16-bit offsets start
at 0 and wrap modulo 2^16, see `rep_movsw`); restore the gate state;
`set_code_success`. -/
def handle_1587 (r : MoveRegs) (s : MoveState) : MoveResult :=
  let a20 := set_a20 true s.a20Port
  let loc := MAKE_FLATPTR r.es r.si
  let gdt1 := fun k => if k = 1
    then GDT_DATA ||| GDT_LIMIT (6 * 8 - 1) ||| GDT_BASE loc else s.gdt k
  let gdt2 := fun k => if k = 4
    then GDT_CODE ||| GDT_LIMIT 0xffff ||| GDT_BASE 0xf0000 else gdt1 k
  let loc2 := MAKE_FLATPTR r.ss 0
  let gdt3 := fun k => if k = 5
    then GDT_DATA ||| GDT_LIMIT 0xffff ||| GDT_BASE loc2 else gdt2 k
  let copy := rep_movsw r.cx 0 s.srcMem s.dstMem
  let a20After := set_a20 a20.1 a20.2
  { midPort := a20.2, finalPort := a20After.2, gdt := gdt3,
    dstMem := copy.1, writes := copy.2, success := true }

/- ### Helper lemmas -/

/-- The copy loop always performs exactly one data write per word of
the count, whatever the starting offset. -/
theorem rep_movsw_length (n : Nat) : ∀ (off : Nat) (src dst : Nat → Nat),
    (rep_movsw n off src dst).2.length = n := by
  induction n with
  | zero => intro off src dst; rfl
  | succ n ih =>
      intro off src dst
      simp only [rep_movsw, List.length_cons, ih]

/-- Closed form of the write trace from an even starting offset `2*a`:
step `k` writes word address `(a + k) % 2^15`, the 16-bit byte offset
wrapping modulo 2^16. -/
theorem rep_movsw_trace (n : Nat) : ∀ (a : Nat) (src dst : Nat → Nat),
    a < 32768 →
    (rep_movsw n (2 * a) src dst).2 =
      (List.range n).map fun k =>
        ((a + k) % 32768, src ((a + k) % 32768)) := by
  induction n with
  | zero => intro a src dst ha; rfl
  | succ n ih =>
      intro a src dst ha
      have hw : 2 * a / 2 = a := by omega
      have hoff : (2 * a + 2) % 65536 = 2 * ((a + 1) % 32768) := by omega
      simp only [rep_movsw, hw, hoff]
      rw [ih ((a + 1) % 32768) src _ (by omega)]
      rw [List.range_succ_eq_map, List.map_cons, List.map_map]
      have hhead : ((a + 0) % 32768, src ((a + 0) % 32768)) =
          (a, src a) := by
        rw [Nat.add_zero, Nat.mod_eq_of_lt ha]
      have htail : ∀ k : Nat,
          (((a + 1) % 32768 + k) % 32768,
            src (((a + 1) % 32768 + k) % 32768)) =
          ((a + Nat.succ k) % 32768, src ((a + Nat.succ k) % 32768)) := by
        intro k
        have hk : ((a + 1) % 32768 + k) % 32768 =
            (a + Nat.succ k) % 32768 := by omega
        rw [hk]
      rw [hhead]
      refine congrArg (List.cons _) ?_
      apply List.map_congr_left
      intro k _
      exact htail k

/-- From offset 0, the write trace is word addresses `k % 2^15` for
`k = 0, ..., n-1`, each carrying the source word at that address. -/
theorem rep_movsw_trace_zero (n : Nat) (src dst : Nat → Nat) :
    (rep_movsw n 0 src dst).2 =
      (List.range n).map fun k => (k % 32768, src (k % 32768)) := by
  have h := rep_movsw_trace n 0 src dst (by decide)
  simpa using h

/-- For counts up to 2^15 no offset wrap occurs: from offset 0 the
trace is the ascending list of word addresses `0, ..., n-1` with the
source data. -/
theorem rep_movsw_trace_of_le (n : Nat) (src dst : Nat → Nat)
    (h : n ≤ 32768) :
    (rep_movsw n 0 src dst).2 = (List.range n).map fun j => (j, src j) := by
  rw [rep_movsw_trace_zero]
  apply List.map_congr_left
  intro k hk
  have hk32 : k < 32768 := by
    have := List.mem_range.mp hk
    omega
  rw [Nat.mod_eq_of_lt hk32]

/-- For counts that stay within the 16-bit offset range, words
`[i, i+n)` hold the source data after the loop and every other word of
the destination region is untouched. -/
theorem rep_movsw_mem (n : Nat) : ∀ (i : Nat) (src dst : Nat → Nat) (j : Nat),
    n + i ≤ 32768 →
    (rep_movsw n (2 * i) src dst).1 j =
      if i ≤ j ∧ j < i + n then src j else dst j := by
  induction n with
  | zero =>
      intro i src dst j h
      rw [rep_movsw, if_neg (by omega)]
  | succ n ih =>
      intro i src dst j h
      have hw : 2 * i / 2 = i := by omega
      simp only [rep_movsw, hw]
      by_cases hlast : i + 1 = 32768
      · have hn : n = 0 := by omega
        subst hn
        simp only [rep_movsw]
        by_cases h2 : j = i
        · subst h2
          rw [if_pos rfl, if_pos (by omega)]
        · rw [if_neg h2, if_neg (by omega)]
      · have hoff : (2 * i + 2) % 65536 = 2 * (i + 1) := by omega
        rw [hoff, ih (i + 1) src _ j (by omega)]
        by_cases h1 : i + 1 ≤ j ∧ j < i + 1 + n
        · rw [if_pos h1, if_pos (by omega)]
        · rw [if_neg h1]
          by_cases h2 : j = i
          · subst h2
            rw [if_pos rfl, if_pos (by omega)]
          · rw [if_neg h2, if_neg (by omega)]

/-- Forcing the gate on and then writing back the saved state restores
the exact PORT_A20 byte, and the intermediate byte has the gate bit
set. -/
theorem a20_save_restore : ∀ v, v < 256 →
    (set_a20 true v).2 &&& A20_ENABLE_BIT ≠ 0 ∧
    (set_a20 (set_a20 true v).1 (set_a20 true v).2).2 = v := by decide

/-- Extracting the `ah` byte after `set_code_fail` yields the status
code. -/
theorem setAH_ah (a : Nat) :
    setAH a RET_EUNSUPPORTED / 256 % 256 = RET_EUNSUPPORTED := by
  unfold setAH RET_EUNSUPPORTED
  omega

/-- The write trace of handle_1587 is the write trace of its copy loop
run over `cx` words from offset 0. -/
theorem handle_1587_writes (r : MoveRegs) (s : MoveState) :
    (handle_1587 r s).writes = (rep_movsw r.cx 0 s.srcMem s.dstMem).2 := rfl

/- ### Claim theorems -/

/-- C1 counterexample: at word count 0x8001 = 32769 — reachable, since
the count register is 16 bits — the 16-bit offsets wrap modulo 2^16,
so iteration 32768 rewrites word address 0: the write trace is not the
ascending list claimed, and its addresses are not in ascending order
(source region taken as the identity so addresses show in the data). -/
theorem move_block_copy_trace_cex :
    ¬ ((handle_1587 ⟨0, 0, 0, 32769⟩
          ⟨0, fun _ => 0, fun k => k, fun _ => 0⟩).writes =
        (List.range 32769).map (fun i => (i, i))) ∧
    ¬ List.Pairwise (fun a b => a.1 < b.1)
        (handle_1587 ⟨0, 0, 0, 32769⟩
          ⟨0, fun _ => 0, fun k => k, fun _ => 0⟩).writes := by
  have htr : (handle_1587 ⟨0, 0, 0, 32769⟩
      ⟨0, fun _ => 0, fun k => k, fun _ => 0⟩).writes =
      (List.range 32769).map fun k => (k % 32768, k % 32768) := by
    rw [handle_1587_writes, rep_movsw_trace_zero]
  have hnp : ¬ List.Pairwise (fun a b => a.1 < b.1)
      (handle_1587 ⟨0, 0, 0, 32769⟩
        ⟨0, fun _ => 0, fun k => k, fun _ => 0⟩).writes := by
    rw [htr]
    intro hp
    have hlt := List.pairwise_iff_getElem.mp hp 0 32768
      (by simp) (by simp) (by omega)
    simp only [List.getElem_map, List.getElem_range] at hlt
    omega
  refine ⟨fun h => hnp ?_, hnp⟩
  rw [h]
  exact (List.pairwise_lt_range 32769).map _ (fun a b hab => hab)

/-- C1 amended: every block-move request succeeds and the copy performs
exactly `word_count` word writes, step `k` writing word address
`k % 2^15` (the 16-bit offsets wrap modulo 2^16); `word_count = 0`
performs zero data writes; and for every `word_count ≤ 0x8000` — where
no wrap occurs — the writes go to ascending distinct addresses
`0, ..., word_count-1` carrying the source data in order, after which
the destination region holds the first `word_count` source words and is
untouched elsewhere. -/
theorem move_block_copy_trace (r : MoveRegs) (s : MoveState) :
    (handle_1587 r s).success = true ∧
    (handle_1587 r s).writes.length = r.cx ∧
    (handle_1587 r s).writes =
      (List.range r.cx).map (fun k => (k % 32768, s.srcMem (k % 32768))) ∧
    (r.cx = 0 → (handle_1587 r s).writes = []) ∧
    (r.cx ≤ 32768 →
      (handle_1587 r s).writes =
        (List.range r.cx).map (fun i => (i, s.srcMem i)) ∧
      List.Pairwise (fun a b => a.1 < b.1) (handle_1587 r s).writes ∧
      ∀ j, (handle_1587 r s).dstMem j =
        if j < r.cx then s.srcMem j else s.dstMem j) := by
  refine ⟨rfl, rep_movsw_length r.cx 0 s.srcMem s.dstMem, ?_, ?_, ?_⟩
  · exact rep_movsw_trace_zero r.cx s.srcMem s.dstMem
  · intro h0
    show (rep_movsw r.cx 0 s.srcMem s.dstMem).2 = []
    rw [h0]
    rfl
  · intro hcx
    have hw : (handle_1587 r s).writes =
        (List.range r.cx).map (fun i => (i, s.srcMem i)) :=
      rep_movsw_trace_of_le r.cx s.srcMem s.dstMem hcx
    refine ⟨hw, ?_, ?_⟩
    · rw [hw]
      exact (List.pairwise_lt_range r.cx).map _ (fun a b h => h)
    · intro j
      show (rep_movsw r.cx 0 s.srcMem s.dstMem).1 j = _
      have hm := rep_movsw_mem r.cx 0 s.srcMem s.dstMem j (by omega)
      rw [Nat.mul_zero] at hm
      rw [hm]
      by_cases hj : j < r.cx
      · rw [if_pos (by omega), if_pos hj]
      · rw [if_neg (by omega), if_neg hj]

/-- Witness for C1 at word count 2 (no wrap): the trace is the two
ascending writes of the source words and the call succeeds. -/
theorem move_block_copy_trace_witness :
    (handle_1587 ⟨0, 0, 0, 2⟩
        ⟨0, fun _ => 0, fun i => i + 7, fun _ => 9⟩).writes =
      [(0, 7), (1, 8)] ∧
    (handle_1587 ⟨0, 0, 0, 2⟩
        ⟨0, fun _ => 0, fun i => i + 7, fun _ => 9⟩).success = true := by
  have h := move_block_copy_trace ⟨0, 0, 0, 2⟩
    ⟨0, fun _ => 0, fun i => i + 7, fun _ => 9⟩
  refine ⟨?_, h.1⟩
  rw [(h.2.2.2.2 (by decide)).1]
  rfl

/-- C2: the block move first forces the gate enabled (the gate bit of
the port byte is set while the copy runs) and on return the whole
PORT_A20 byte — the gate bit and every other bit — equals its pre-call
value, whatever the initial gate state was. -/
theorem move_block_gate_restored (r : MoveRegs) (s : MoveState)
    (h : s.a20Port < 256) :
    (handle_1587 r s).midPort &&& A20_ENABLE_BIT ≠ 0 ∧
    (handle_1587 r s).finalPort = s.a20Port :=
  a20_save_restore s.a20Port h

/-- Witness for C2 at a concrete initial port byte 3 (gate bit clear,
another bit set). -/
theorem move_block_gate_restored_witness :
    (handle_1587 ⟨0, 0, 0, 0⟩
        ⟨3, fun _ => 0, fun _ => 0, fun _ => 0⟩).midPort &&&
      A20_ENABLE_BIT ≠ 0 ∧
    (handle_1587 ⟨0, 0, 0, 0⟩
        ⟨3, fun _ => 0, fun _ => 0, fun _ => 0⟩).finalPort = 3 :=
  move_block_gate_restored ⟨0, 0, 0, 0⟩
    ⟨3, fun _ => 0, fun _ => 0, fun _ => 0⟩ (by decide)

/-- C8: set_a20 preserves bit 0 and all bits above the gate bit of the
port byte, sets or clears exactly the gate bit according to the flag,
reports whether the gate bit was previously set, and is idempotent. -/
theorem set_a20_masked_update (v : Nat) (h : v < 256) (cond : Bool) :
    ((set_a20 cond v).1 = true ↔ v &&& A20_ENABLE_BIT ≠ 0) ∧
    (set_a20 cond v).2 % 2 = v % 2 ∧
    (set_a20 cond v).2 / 4 = v / 4 ∧
    ((set_a20 cond v).2 &&& A20_ENABLE_BIT =
      if cond then A20_ENABLE_BIT else 0) ∧
    (set_a20 cond (set_a20 cond v).2).2 = (set_a20 cond v).2 := by
  revert v h cond
  decide

/-- Witness for C8 at port byte 5 and flag true. -/
theorem set_a20_masked_update_witness :
    ((set_a20 true 5).1 = true ↔ (5 : Nat) &&& A20_ENABLE_BIT ≠ 0) ∧
    (set_a20 true 5).2 % 2 = 5 % 2 ∧
    (set_a20 true 5).2 / 4 = 5 / 4 ∧
    ((set_a20 true 5).2 &&& A20_ENABLE_BIT =
      if true then A20_ENABLE_BIT else 0) ∧
    (set_a20 true (set_a20 true 5).2).2 = (set_a20 true 5).2 :=
  set_a20_masked_update 5 (by decide) true

/-- C9 counterexample: with the gate bit initially set (port byte 2),
set_a20 true followed by set_a20 false leaves the gate bit clear, so
the pair does not restore the original hardware bit. -/
theorem set_a20_roundtrip_cex :
    (2 : Nat) &&& A20_ENABLE_BIT ≠ 0 ∧
    (set_a20 false (set_a20 true 2).2).2 &&& A20_ENABLE_BIT = 0 := by
  decide

/-- C9 amended: when the gate bit is initially clear, set_a20 true
followed by set_a20 false restores the original port byte exactly; for
every initial state the second call reports previous state true. -/
theorem set_a20_roundtrip (v : Nat) (h : v < 256) :
    (set_a20 false (set_a20 true v).2).1 = true ∧
    (v &&& A20_ENABLE_BIT = 0 →
      (set_a20 false (set_a20 true v).2).2 = v) := by
  revert v h
  decide

/-- Witness for C9 at port byte 1 (gate bit clear, bit 0 set). -/
theorem set_a20_roundtrip_witness :
    (set_a20 false (set_a20 true 1).2).1 = true ∧
    (set_a20 false (set_a20 true 1).2).2 = 1 :=
  ⟨(set_a20_roundtrip 1 (by decide)).1,
   (set_a20_roundtrip 1 (by decide)).2 (by decide)⟩

/-- C3: with the correct signature, the exact encoded size, and a cursor
below the table length (the table holds at most 2^16 entries, since the
cursor register is 16 bits wide), get_entry copies the entry at the
cursor to the caller's buffer, leaves the table unchanged, succeeds,
returns next cursor `cursor+1` (or the sentinel 0 from the last entry),
echoes the signature and reports the encoded size as bytes written. -/
theorem get_entry_success (table : Nat → E820Entry) (count : Nat)
    (r : E820Regs) (hsig : r.edx = 0x534D4150)
    (hsz : r.ecx = E820_ENTRY_SIZE) (hcount : count ≤ 65536)
    (hcur : r.ebx < count) :
    (handle_15e820 table count r).bufWrite = some (table r.ebx) ∧
    (handle_15e820 table count r).table = table ∧
    (handle_15e820 table count r).regs.cf = false ∧
    (handle_15e820 table count r).regs.ebx =
      (if r.ebx + 1 < count then r.ebx + 1 else 0) ∧
    (handle_15e820 table count r).regs.eax = 0x534D4150 ∧
    (handle_15e820 table count r).regs.ecx = E820_ENTRY_SIZE := by
  have hbx : r.ebx % 65536 = r.ebx :=
    Nat.mod_eq_of_lt (Nat.lt_of_lt_of_le hcur hcount)
  have hc : ¬ (r.edx ≠ 0x534D4150 ∨ count ≤ r.ebx % 65536 ∨
      r.ecx < E820_ENTRY_SIZE) := by
    push_neg
    exact ⟨hsig, by omega, by omega⟩
  unfold handle_15e820
  rw [if_neg hc]
  refine ⟨by rw [hbx], rfl, rfl, ?_, rfl, rfl⟩
  show (if r.ebx % 65536 = count - 1 then 0 else mod32 (r.ebx + 1)) = _
  unfold mod32
  rw [hbx]
  split_ifs <;> omega

/-- Witness for C3: a one-entry table enumerated from cursor 0. -/
theorem get_entry_success_witness :
    (handle_15e820 (fun _ => ⟨0, 654336, 1⟩) 1
        { eax := 0, ebx := 0, ecx := 20, edx := 0x534D4150,
          cf := true }).bufWrite = some ⟨0, 654336, 1⟩ ∧
    (handle_15e820 (fun _ => ⟨0, 654336, 1⟩) 1
        { eax := 0, ebx := 0, ecx := 20, edx := 0x534D4150,
          cf := true }).table = (fun _ => ⟨0, 654336, 1⟩) ∧
    (handle_15e820 (fun _ => ⟨0, 654336, 1⟩) 1
        { eax := 0, ebx := 0, ecx := 20, edx := 0x534D4150,
          cf := true }).regs.cf = false ∧
    (handle_15e820 (fun _ => ⟨0, 654336, 1⟩) 1
        { eax := 0, ebx := 0, ecx := 20, edx := 0x534D4150,
          cf := true }).regs.ebx = (if 0 + 1 < 1 then 0 + 1 else 0) ∧
    (handle_15e820 (fun _ => ⟨0, 654336, 1⟩) 1
        { eax := 0, ebx := 0, ecx := 20, edx := 0x534D4150,
          cf := true }).regs.eax = 0x534D4150 ∧
    (handle_15e820 (fun _ => ⟨0, 654336, 1⟩) 1
        { eax := 0, ebx := 0, ecx := 20, edx := 0x534D4150,
          cf := true }).regs.ecx = E820_ENTRY_SIZE :=
  get_entry_success (fun _ => ⟨0, 654336, 1⟩) 1
    { eax := 0, ebx := 0, ecx := 20, edx := 0x534D4150, cf := true }
    rfl rfl (by decide) (by decide)

/-- C4 counterexample: expected_record_size = 21, one byte larger than
the encoded size 20, with a valid signature and cursor, is accepted
(carry clear) rather than rejected. -/
theorem get_entry_size_check_cex :
    (handle_15e820 (fun _ => ⟨0, 654336, 1⟩) 1
        { eax := 0, ebx := 0, ecx := 21, edx := 0x534D4150,
          cf := false }).regs.cf = false := by
  decide

/-- C4 amended: get_entry rejects exactly when the signature is wrong,
the 16-bit cursor is at or beyond the table length, or the expected
record size is smaller than the encoded size 20 (larger sizes are
accepted); every rejection carries the same generic unsupported-function
status in `ah`, so no distinct fault codes or check ordering are
observable. -/
theorem get_entry_validation (table : Nat → E820Entry) (count : Nat)
    (r : E820Regs) :
    ((handle_15e820 table count r).regs.cf = true ↔
      (r.edx ≠ 0x534D4150 ∨ count ≤ r.ebx % 65536 ∨
        r.ecx < E820_ENTRY_SIZE)) ∧
    ((handle_15e820 table count r).regs.cf = true →
      (handle_15e820 table count r).regs.eax / 256 % 256 =
        RET_EUNSUPPORTED) := by
  unfold handle_15e820
  split_ifs with hc
  · exact ⟨iff_of_true rfl hc, fun _ => setAH_ah r.eax⟩
  all_goals exact ⟨iff_of_false (fun h => h) hc, fun h => h.elim⟩

/-- Witness for C4's amended claim at a concrete rejected call (empty
table): the carry is set and `ah` holds the generic status. -/
theorem get_entry_validation_witness :
    (handle_15e820 (fun _ => ⟨0, 0, 0⟩) 0
        { eax := 0, ebx := 0, ecx := 0, edx := 0,
          cf := false }).regs.eax / 256 % 256 = RET_EUNSUPPORTED :=
  (get_entry_validation (fun _ => ⟨0, 0, 0⟩) 0
    { eax := 0, ebx := 0, ecx := 0, edx := 0, cf := false }).2 (by decide)

/-- C5 counterexample: expected_record_size = 24 — a "wrong" size per
the claim — with valid signature and cursor succeeds and writes the
entry to the caller's buffer, instead of failing with no write. -/
theorem get_entry_wrong_size_writes_cex :
    (handle_15e820 (fun _ => ⟨4096, 8192, 2⟩) 2
        { eax := 0, ebx := 1, ecx := 24, edx := 0x534D4150,
          cf := false }).bufWrite = some ⟨4096, 8192, 2⟩ ∧
    (handle_15e820 (fun _ => ⟨4096, 8192, 2⟩) 2
        { eax := 0, ebx := 1, ecx := 24, edx := 0x534D4150,
          cf := false }).regs.cf = false := by
  decide

/-- C5 amended: whenever validation fails — wrong signature, cursor at
or beyond the table length, or expected record size smaller than the
encoded size — get_entry reports the unsupported-function status with
carry set and performs no buffer write; cursor and size registers and
the table are left unchanged. -/
theorem get_entry_error_no_write (table : Nat → E820Entry) (count : Nat)
    (r : E820Regs)
    (h : r.edx ≠ 0x534D4150 ∨ count ≤ r.ebx % 65536 ∨
      r.ecx < E820_ENTRY_SIZE) :
    (handle_15e820 table count r).regs.cf = true ∧
    (handle_15e820 table count r).regs.eax / 256 % 256 =
      RET_EUNSUPPORTED ∧
    (handle_15e820 table count r).bufWrite = none ∧
    (handle_15e820 table count r).regs.ebx = r.ebx ∧
    (handle_15e820 table count r).regs.ecx = r.ecx ∧
    (handle_15e820 table count r).table = table := by
  unfold handle_15e820
  rw [if_pos h]
  exact ⟨rfl, setAH_ah r.eax, rfl, rfl, rfl, rfl⟩

/-- Witness for C5 at a concrete rejected call: cursor 3 on a 2-entry
table. -/
theorem get_entry_error_no_write_witness :
    (handle_15e820 (fun _ => ⟨0, 4096, 1⟩) 2
        { eax := 0, ebx := 3, ecx := 20, edx := 0x534D4150,
          cf := false }).regs.cf = true ∧
    (handle_15e820 (fun _ => ⟨0, 4096, 1⟩) 2
        { eax := 0, ebx := 3, ecx := 20, edx := 0x534D4150,
          cf := false }).regs.eax / 256 % 256 = RET_EUNSUPPORTED ∧
    (handle_15e820 (fun _ => ⟨0, 4096, 1⟩) 2
        { eax := 0, ebx := 3, ecx := 20, edx := 0x534D4150,
          cf := false }).bufWrite = none ∧
    (handle_15e820 (fun _ => ⟨0, 4096, 1⟩) 2
        { eax := 0, ebx := 3, ecx := 20, edx := 0x534D4150,
          cf := false }).regs.ebx = 3 ∧
    (handle_15e820 (fun _ => ⟨0, 4096, 1⟩) 2
        { eax := 0, ebx := 3, ecx := 20, edx := 0x534D4150,
          cf := false }).regs.ecx = 20 ∧
    (handle_15e820 (fun _ => ⟨0, 4096, 1⟩) 2
        { eax := 0, ebx := 3, ecx := 20, edx := 0x534D4150,
          cf := false }).table = (fun _ => ⟨0, 4096, 1⟩) :=
  get_entry_error_no_write (fun _ => ⟨0, 4096, 1⟩) 2
    { eax := 0, ebx := 3, ecx := 20, edx := 0x534D4150, cf := false }
    (by decide)

/-- C6 counterexample: monotonicity fails over all of `u32`; at total
memory 512 KiB the wrapped subtraction makes the reported size larger
than at 2 MiB. -/
theorem query_size_legacy_cex :
    512 * 1024 < 2 * 1024 * 1024 ∧
    handle_1588 (2 * 1024 * 1024) < handle_1588 (512 * 1024) := by
  decide

/-- C6 amended: for every total memory size R with 1 MiB ≤ R < 2^32,
handle_1588 reports 63*1024 when R > 64 MiB and (R - 1 MiB)/1024 KiB
otherwise; R = 2 MiB yields 1024, R = 100 MiB yields 63*1024, R = 1 MiB
yields 0; and the result is monotonic on that domain. -/
theorem query_size_legacy_spec :
    (∀ rs, 1024 * 1024 ≤ rs → rs < 4294967296 →
      handle_1588 rs =
        if 64 * 1024 * 1024 < rs then 63 * 1024
        else (rs - 1024 * 1024) / 1024) ∧
    handle_1588 (2 * 1024 * 1024) = 1024 ∧
    handle_1588 (100 * 1024 * 1024) = 63 * 1024 ∧
    handle_1588 (1024 * 1024) = 0 ∧
    (∀ r1 r2, 1024 * 1024 ≤ r1 → r1 ≤ r2 → r2 < 4294967296 →
      handle_1588 r1 ≤ handle_1588 r2) := by
  have hform : ∀ rs, 1024 * 1024 ≤ rs → rs < 4294967296 →
      handle_1588 rs =
        if 64 * 1024 * 1024 < rs then 63 * 1024
        else (rs - 1024 * 1024) / 1024 := by
    intro rs h1 h2
    unfold handle_1588 mod16 sub32 mod32
    split_ifs <;> omega
  refine ⟨hform, by decide, by decide, by decide, ?_⟩
  intro r1 r2 h1 h12 h2
  rw [hform r1 h1 (by omega), hform r2 (by omega) h2]
  split_ifs <;> omega

/-- Witness for C6 at R = 2 MiB, discharging the hypotheses of the
quantified formula conjunct. -/
theorem query_size_legacy_spec_witness :
    handle_1588 (2 * 1024 * 1024) =
      if 64 * 1024 * 1024 < 2 * 1024 * 1024 then 63 * 1024
      else (2 * 1024 * 1024 - 1024 * 1024) / 1024 :=
  query_size_legacy_spec.1 (2 * 1024 * 1024) (by decide) (by decide)

/-- C7 counterexample: at total memory 512 KiB the below-16M figure is
the wrapped value 65024, while the claimed formula (R - 1 MiB)/1024 is
negative over the integers — the claim does not hold for every R. -/
theorem query_size_extended_cex :
    (handle_15e801 (512 * 1024)).cx = 65024 ∧
    ((512 * 1024 : Int) - 1024 * 1024) / 1024 = -512 := by
  constructor
  · decide
  · decide

/-- C7 amended: for every total memory size R with 1 MiB ≤ R < 2^32,
handle_15e801 reports (15*1024 KiB, (R - 16 MiB)/64 KiB blocks) when
R > 16 MiB and ((R - 1 MiB)/1024 KiB, 0) otherwise; for every R the
configured pair mirrors the extended pair (ax = cx, bx = dx); R = 8 MiB
yields (7*1024, 0) and R = 20 MiB yields (15*1024, 64). -/
theorem query_size_extended_spec :
    (∀ rs, 1024 * 1024 ≤ rs → rs < 4294967296 →
      (handle_15e801 rs).cx =
        (if 16 * 1024 * 1024 < rs then 15 * 1024
         else (rs - 1024 * 1024) / 1024) ∧
      (handle_15e801 rs).dx =
        (if 16 * 1024 * 1024 < rs
         then (rs - 16 * 1024 * 1024) / (64 * 1024) else 0)) ∧
    (∀ rs, (handle_15e801 rs).ax = (handle_15e801 rs).cx ∧
      (handle_15e801 rs).bx = (handle_15e801 rs).dx) ∧
    (handle_15e801 (8 * 1024 * 1024)).cx = 7 * 1024 ∧
    (handle_15e801 (8 * 1024 * 1024)).dx = 0 ∧
    (handle_15e801 (20 * 1024 * 1024)).cx = 15 * 1024 ∧
    (handle_15e801 (20 * 1024 * 1024)).dx = 64 := by
  refine ⟨?_, fun rs => ⟨rfl, rfl⟩, by decide, by decide, by decide,
    by decide⟩
  intro rs h1 h2
  unfold handle_15e801 mod16 sub32 mod32
  constructor
  · show (if 16 * 1024 * 1024 < rs then (15 * 1024) % 65536
      else (rs + 4294967296 - 1024 * 1024) % 4294967296 / 1024 % 65536) = _
    split_ifs <;> omega
  · show (if 16 * 1024 * 1024 < rs
      then (rs + 4294967296 - 16 * 1024 * 1024) % 4294967296 /
        (64 * 1024) % 65536
      else 0) = _
    split_ifs <;> omega

/-- Witness for C7 at R = 20 MiB, discharging the hypotheses of the
quantified formula conjunct. -/
theorem query_size_extended_spec_witness :
    (handle_15e801 (20 * 1024 * 1024)).cx =
      (if 16 * 1024 * 1024 < 20 * 1024 * 1024 then 15 * 1024
       else (20 * 1024 * 1024 - 1024 * 1024) / 1024) ∧
    (handle_15e801 (20 * 1024 * 1024)).dx =
      (if 16 * 1024 * 1024 < 20 * 1024 * 1024
       then (20 * 1024 * 1024 - 16 * 1024 * 1024) / (64 * 1024) else 0) :=
  query_size_extended_spec.1 (20 * 1024 * 1024) (by decide) (by decide)

/-- C10: when total memory R is below 1 MiB, the u32 subtraction
R - 1 MiB wraps modulo 2^32, so handle_1588 and the uncapped branch of
handle_15e801 both report huge values — at least 63*1024 — instead of
the exact-arithmetic value (R - 1 MiB)/1024, which is 0 in truncated
natural subtraction. -/
theorem query_size_wraps_below_1MiB (rs : Nat) (h : rs < 1024 * 1024) :
    63 * 1024 ≤ handle_1588 rs ∧
    63 * 1024 ≤ (handle_15e801 rs).cx ∧
    handle_1588 rs ≠ (rs - 1024 * 1024) / 1024 ∧
    (handle_15e801 rs).cx ≠ (rs - 1024 * 1024) / 1024 := by
  have h88 : 63 * 1024 ≤ handle_1588 rs := by
    unfold handle_1588 mod16 sub32 mod32
    rw [if_neg (by omega)]
    omega
  have h801 : 63 * 1024 ≤ (handle_15e801 rs).cx := by
    show 63 * 1024 ≤
      if 16 * 1024 * 1024 < rs then mod16 (15 * 1024)
      else mod16 (sub32 rs (1 * 1024 * 1024) / 1024)
    unfold mod16 sub32 mod32
    rw [if_neg (by omega)]
    omega
  exact ⟨h88, h801, by omega, by omega⟩

/-- Witness for C10 at R = 0. -/
theorem query_size_wraps_below_1MiB_witness :
    63 * 1024 ≤ handle_1588 0 ∧
    63 * 1024 ≤ (handle_15e801 0).cx ∧
    handle_1588 0 ≠ (0 - 1024 * 1024) / 1024 ∧
    (handle_15e801 0).cx ≠ ((0 : Nat) - 1024 * 1024) / 1024 :=
  query_size_wraps_below_1MiB 0 (by decide)
